import Mathlib

set_option maxHeartbeats 1000000

/-!
Shallow embedding of `util/downloader/download.go` (package `downloader`, plus the
`terminal.Progress` helper from `util/terminal`).

The filesystem is modelled as a map from paths to byte lists; every fallible external
step of `downloadFile` (directory creation, file open, stat, request construction,
transport, truncate, seek, stream copy, checksum validation, renames, guest copy) is
resolved by an environment oracle `Env`, so theorems quantify over all outcomes.
Bytes are `Nat`, HTTP status codes are `Nat`, sizes are `Int` (Go `int64`).
-/

namespace Downloader

/-- Host filesystem: path → file content (bytes). -/
abbrev FS : Type := String → Option (List Nat)

/-- Write (create or replace) the file at path `p` with content `c`. -/
def fsWrite (fs : FS) (p : String) (c : List Nat) : FS :=
  fun q => if q = p then some c else fs q

/-- `os.Rename src dst`: the content of `src` moves to `dst`, `src` disappears. -/
def fsRename (fs : FS) (src dst : String) : FS :=
  fun q => if q = src then none else if q = dst then fs src else fs q

/-- `os.OpenFile(p, O_CREATE|O_WRONLY, 0644)`: create an empty file if absent,
keep the existing content otherwise (no truncation). -/
def fsEnsure (fs : FS) (p : String) : FS :=
  if (fs p).isSome then fs else fsWrite fs p []

/-- Content of the file at `p` (empty when absent; used only after `fsEnsure`). -/
def fsRead (fs : FS) (p : String) : List Nat :=
  (fs p).getD []

/-- Checksum reference (`*SHA` in the source); only its presence matters here,
its validation verdict is supplied by the environment. -/
structure SHA where
  url : String
  deriving DecidableEq

/-- `Request` is a download request. -/
structure Request where
  URL : String
  SHA : Option SHA
  deriving DecidableEq

/-- An HTTP response as far as `downloadFile` inspects it. `contentLength` is the
Go `Response.ContentLength` (`-1` when the origin declares no content length). -/
structure Resp where
  statusCode : Nat
  contentLength : Int
  body : List Nat
  deriving DecidableEq

/-- Outcome oracle for every fallible step of one download attempt.
`copyErr = some k` means `io.Copy` fails after writing the first `k` bytes of
the body; `shaValid` is the verdict of the external checksum validator. -/
structure Env where
  mkdirOk : Bool
  openOk : Bool
  statOk : Bool
  newRequestOk : Bool
  doResult : Option Resp
  truncateOk : Bool
  seekOk : Bool
  copyErr : Option Nat
  shaValid : Bool
  quarantineRenameOk : Bool
  commitRenameOk : Bool
  cpOk : Bool

/-- The error kinds surfaced by the downloader (the Go code wraps each with the
offending URL; the wrapping text is irrelevant to the claims). -/
inductive Err where
  | prepCacheDir
  | createDest
  | statFail
  | newRequest
  | transport
  | truncateFail
  | unexpectedStatus (code : Nat)
  | seekFail
  | copyFail
  | shaValidation
  | renameCommit
  | copyCmd
  deriving DecidableEq

/-- Hex digit for a nibble. -/
def hexDigitChar (n : Nat) : Char :=
  match n with
  | 0 => '0' | 1 => '1' | 2 => '2' | 3 => '3' | 4 => '4'
  | 5 => '5' | 6 => '6' | 7 => '7' | 8 => '8' | 9 => '9'
  | 10 => 'a' | 11 => 'b' | 12 => 'c' | 13 => 'd' | 14 => 'e' | _ => 'f'

/-- Six fixed-width hex digits of `n` (enough for any `Char.toNat`). -/
def hex6 (n : Nat) : List Char :=
  [hexDigitChar (n / 1048576 % 16), hexDigitChar (n / 65536 % 16),
   hexDigitChar (n / 4096 % 16), hexDigitChar (n / 256 % 16),
   hexDigitChar (n / 16 % 16), hexDigitChar (n % 16)]

/-- Modelled from the spec: `shautil.SHA256(url).String()` — the CacheKey digest
`hex(sha256(url))`. The digest implementation lives outside the source under
verification; the claims depend only on it being a pure deterministic function of
the url, so it is modelled as a fixed-width hex encoding of the url's characters. -/
def shaHex (url : String) : String :=
  ⟨url.data.foldr (fun c acc => hex6 c.toNat ++ acc) []⟩

/-- Modelled from the spec: `config.CacheDir()` — the process-wide cache root
supplied by external configuration, opaque to this core; a fixed abstract value. -/
def CacheDir : String := "c"

/-- `CacheFilename` returns the computed filename for the url
(`filepath.Join(config.CacheDir(), "caches", shautil.SHA256(url).String())`). -/
def CacheFilename (url : String) : String :=
  CacheDir ++ "/caches/" ++ shaHex url

/-- The in-progress (temporary) file name for the url. -/
def cacheDownloadingFileName (url : String) : String :=
  CacheFilename url ++ ".downloading"

/-- `Progress` tracks download progress. `lastReport` is a timestamp in
milliseconds (Go `time.Time`); the logger and mutex are not modelled. -/
structure Progress where
  Total : Int
  Current : Int
  lastReport : Int
  deriving DecidableEq

/-- `newProgress` creates a new `Progress` (zero `lastReport`, as the Go zero
`time.Time` lies far in the past). -/
def newProgress (total current : Int) : Progress :=
  { Total := total, Current := current, lastReport := 0 }

/-- Decimal digits of `n` (with fuel for structural recursion). -/
def digitsAux (fuel n : Nat) : List Char :=
  match fuel, n with
  | 0, _ => []
  | _ + 1, 0 => []
  | f + 1, m => digitsAux f (m / 10) ++ [hexDigitChar (m % 10)]

/-- Decimal representation of a natural number. -/
def natRepr (n : Nat) : String :=
  if n = 0 then "0" else ⟨digitsAux (n + 1) n⟩

/-- Two-digit zero-padded decimal representation. -/
def pad2 (n : Nat) : String :=
  if n < 10 then "0" ++ natRepr n else natRepr n

/-- Models `fmt.Sprintf("%.2f%%", float64(current)*100/float64(total))`: the
percentage to two decimal places, with the `float64` arithmetic modelled exactly
over the integers (rounded to the nearest hundredth of a percent). -/
def format2f (current total : Int) : String :=
  let h : Nat := ((current * 10000 + total / 2) / total).toNat
  natRepr (h / 100) ++ "." ++ pad2 (h % 100) ++ "%"

/-- `terminal.Progress` returns a string of the progress: blank when
`total ≤ 0`, otherwise the percentage `current*100/total` to two decimals. -/
def terminal.Progress (current total : Int) : String :=
  if total ≤ 0 then "" else format2f current total

/-- Result of one `Progress.Write` call: the returned byte count and error, the
updated meter, and the percentage emitted to the terminal (`none` when the
500 ms throttle suppresses the report; the Go code wraps the percentage in the
literal line `"\rdownloading ... %s "`). -/
structure WriteOut where
  n : Nat
  err : Option Err
  p : Progress
  emitted : Option String
  deriving DecidableEq

/-- `Progress.Write` implements `io.Writer`: add the chunk length to `Current`;
emit a progress line only when at least half a second (500 ms) has passed since
the previous report; always return `(len b, nil)`. -/
def Progress.Write (p : Progress) (now : Int) (b : List Nat) : WriteOut :=
  let n := b.length
  let p1 : Progress := { p with Current := p.Current + n }
  if now - p1.lastReport < 500 then
    { n := n, err := none, p := p1, emitted := none }
  else
    { n := n, err := none, p := { p1 with lastReport := now },
      emitted := some (terminal.Progress p1.Current p1.Total) }

/-- Result of one `downloadFile` attempt: the returned error (if any), the
filesystem afterwards, how many HTTP transfers were performed (`client.Do`
calls), how many checksum validations ran, and the progress meter after the
streaming copy (`none` when the attempt aborted before the copy started). -/
structure DLOut where
  res : Except Err Unit
  fs : FS
  net : Nat
  sha : Nat
  progress : Option Progress

/-- The bytes `io.Copy` hands to the destination file: the whole body on
success, a prefix of it when the stream fails mid-copy. -/
def copiedBytes (env : Env) (resp : Resp) : List Nat :=
  match env.copyErr with
  | none => resp.body
  | some k => resp.body.take k

/-- Source lines 182-195: checksum validation (quarantine on failure, with the
quarantine-rename error discarded) followed by the commit rename. `fs3` is the
filesystem after the streaming copy, `dl` the in-progress name, `prog1` the
meter after the copy. -/
def validateAndCommit (env : Env) (fs3 : FS) (r : Request) (dl : String)
    (prog1 : Progress) : DLOut :=
  match r.SHA with
  | some _ =>
    if env.shaValid = false then
      let fs4 :=
        if env.quarantineRenameOk then fsRename fs3 dl (dl ++ ".invalid")
        else fs3
      ⟨.error .shaValidation, fs4, 1, 1, some prog1⟩
    else if env.commitRenameOk then
      ⟨.ok (), fsRename fs3 dl (CacheFilename r.URL), 1, 1, some prog1⟩
    else ⟨.error .renameCommit, fs3, 1, 1, some prog1⟩
  | none =>
    if env.commitRenameOk then
      ⟨.ok (), fsRename fs3 dl (CacheFilename r.URL), 1, 0, some prog1⟩
    else ⟨.error .renameCommit, fs3, 1, 0, some prog1⟩

/-- Source lines 156-195: position the write cursor (206 appends, any other
accepted status overwrites from byte 0), build the progress meter with total
`resp.ContentLength + currentSize`, stream the body (partial content stays in
the file on a copy error), then validate and commit. `cs2` is the current size
after 416 handling. -/
def streamBody (env : Env) (fs2 : FS) (r : Request) (dl : String) (resp : Resp)
    (cs2 : Nat) : DLOut :=
  if env.seekOk = false then ⟨.error .seekFail, fs2, 1, 0, none⟩
  else
    let prog0 := newProgress (resp.contentLength + (cs2 : Int)) (cs2 : Int)
    let old := fsRead fs2 dl
    let written := copiedBytes env resp
    let newContent :=
      if resp.statusCode = 206 then old ++ written
      else written ++ old.drop written.length
    let fs3 := fsWrite fs2 dl newContent
    let prog1 : Progress :=
      { prog0 with Current := prog0.Current + (written.length : Int) }
    match env.copyErr with
    | some _ => ⟨.error .copyFail, fs3, 1, 0, some prog1⟩
    | none => validateAndCommit env fs3 r dl prog1

/-- Source lines 140-172: 416 truncates the in-progress file and resets the
current size, then any status outside `[200,300)` aborts with an
unexpected-status error, otherwise the body is streamed. `currentSize` is the
in-progress file length found by `Stat`. -/
def handleStatus (env : Env) (fs1 : FS) (r : Request) (dl : String) (resp : Resp)
    (currentSize : Nat) : DLOut :=
  if resp.statusCode = 416 ∧ env.truncateOk = false then
    ⟨.error .truncateFail, fs1, 1, 0, none⟩
  else
    let fs2 := if resp.statusCode = 416 then fsWrite fs1 dl [] else fs1
    let cs2 := if resp.statusCode = 416 then 0 else currentSize
    if resp.statusCode < 200 ∨ 300 ≤ resp.statusCode then
      ⟨.error (.unexpectedStatus resp.statusCode), fs2, 1, 0, none⟩
    else streamBody env fs2 r dl resp cs2

/-- `downloader.downloadFile`: the resumable transfer, translated from the
source (lines 82-195). The in-progress file is created/opened without
truncation, its length is the resume offset (a `Range` header is implied by a
positive offset), the response is handled by `handleStatus`/`streamBody`/
`validateAndCommit`, and success commits by renaming the in-progress file to
`CacheFilename`. -/
def downloadFile (env : Env) (fs : FS) (r : Request) : DLOut :=
  let dl := cacheDownloadingFileName r.URL
  if env.mkdirOk = false then ⟨.error .prepCacheDir, fs, 0, 0, none⟩
  else if env.openOk = false then ⟨.error .createDest, fs, 0, 0, none⟩
  else
    let fs1 := fsEnsure fs dl
    if env.statOk = false then ⟨.error .statFail, fs1, 0, 0, none⟩
    else
      let currentSize := (fsRead fs1 dl).length
      if env.newRequestOk = false then ⟨.error .newRequest, fs1, 0, 0, none⟩
      else
        match env.doResult with
        | none => ⟨.error .transport, fs1, 1, 0, none⟩
        | some resp => handleStatus env fs1 r dl resp currentSize

/-- `downloader.hasCache`: a cache hit is a file present at the committed path. -/
def hasCache (fs : FS) (url : String) : Bool :=
  (fs (CacheFilename url)).isSome

/-- Result of `Download`. -/
structure DownloadOut where
  res : Except Err String
  fs : FS
  net : Nat
  sha : Nat

/-- `Download` downloads the file at the url and returns the location of the
downloaded file: on a cache hit it returns the committed path immediately,
otherwise it runs `downloadFile` and returns the committed path on success. -/
def Download (env : Env) (fs : FS) (r : Request) : DownloadOut :=
  if hasCache fs r.URL = false then
    let o := downloadFile env fs r
    match o.res with
    | .error e => ⟨.error e, o.fs, o.net, o.sha⟩
    | .ok _ => ⟨.ok (CacheFilename r.URL), o.fs, o.net, o.sha⟩
  else ⟨.ok (CacheFilename r.URL), fs, 0, 0⟩

/-- `strings.HasPrefix(url, "/")`: the url denotes a local filesystem path. -/
def startsWithSlash (s : String) : Bool :=
  match s.data with
  | [] => false
  | c :: _ => c = '/'

/-- Result of `DownloadToGuest`: the outcome, the host filesystem, the transfer
and validation counts, and the `guest.RunQuiet "cp" src dst` invocations made. -/
structure GuestOut where
  res : Except Err Unit
  fs : FS
  net : Nat
  sha : Nat
  copies : List (String × String)

/-- `DownloadToGuest` downloads the file at the url and saves it in the
destination: a url starting with `/` is copied directly (no download, no
cache); otherwise the file is downloaded to the host cache and the cached
file is copied to the destination. -/
def DownloadToGuest (env : Env) (fs : FS) (r : Request) (filename : String) : GuestOut :=
  if startsWithSlash r.URL then
    ⟨if env.cpOk then .ok () else .error .copyCmd, fs, 0, 0, [(r.URL, filename)]⟩
  else
    let o := Download env fs r
    match o.res with
    | .error e => ⟨.error e, o.fs, o.net, o.sha, []⟩
    | .ok cacheFile =>
      ⟨if env.cpOk then .ok () else .error .copyCmd, o.fs, o.net, o.sha,
        [(cacheFile, filename)]⟩

/-! ### Filesystem and path lemmas -/

theorem fsWrite_self (fs : FS) (p : String) (c : List Nat) :
    fsWrite fs p c p = some c := by
  simp [fsWrite]

theorem fsWrite_ne (fs : FS) (c : List Nat) {p q : String} (h : q ≠ p) :
    fsWrite fs p c q = fs q := by
  simp [fsWrite, h]

theorem fsEnsure_of_none {fs : FS} {p : String} (h : fs p = none) :
    fsEnsure fs p = fsWrite fs p [] := by
  simp [fsEnsure, h]

theorem fsEnsure_of_some {fs : FS} {p : String} {c : List Nat} (h : fs p = some c) :
    fsEnsure fs p = fs := by
  simp [fsEnsure, h]

theorem fsEnsure_ne (fs : FS) {p q : String} (h : q ≠ p) :
    fsEnsure fs p q = fs q := by
  unfold fsEnsure
  split
  · rfl
  · simp [fsWrite, h]

theorem fsRename_src (fs : FS) (src dst : String) :
    fsRename fs src dst src = none := by
  simp [fsRename]

theorem fsRename_dst (fs : FS) {src dst : String} (h : dst ≠ src) :
    fsRename fs src dst dst = fs src := by
  simp [fsRename, h]

theorem fsRename_ne (fs : FS) {src dst q : String} (h1 : q ≠ src) (h2 : q ≠ dst) :
    fsRename fs src dst q = fs q := by
  simp [fsRename, h1, h2]

theorem strLenAppend (s t : String) : (s ++ t).length = s.length + t.length :=
  String.length_append s t

theorem selfNeAppend (s t : String) (h : t.length ≠ 0) : s ≠ s ++ t := by
  intro he
  have hl := congrArg String.length he
  rw [strLenAppend] at hl
  omega

theorem strAppendAssoc (s t u : String) : s ++ t ++ u = s ++ (t ++ u) := by
  rcases s with ⟨a⟩
  rcases t with ⟨b⟩
  rcases u with ⟨c⟩
  show String.mk (a ++ b ++ c) = String.mk (a ++ (b ++ c))
  rw [List.append_assoc]

theorem committed_ne_dl (url : String) :
    CacheFilename url ≠ cacheDownloadingFileName url := by
  unfold cacheDownloadingFileName
  exact selfNeAppend _ _ (by decide)

theorem committed_ne_quarantine (url : String) :
    CacheFilename url ≠ cacheDownloadingFileName url ++ ".invalid" := by
  unfold cacheDownloadingFileName
  rw [strAppendAssoc]
  exact selfNeAppend _ _ (by decide)

theorem dl_ne_quarantine (url : String) :
    cacheDownloadingFileName url ≠ cacheDownloadingFileName url ++ ".invalid" :=
  selfNeAppend _ _ (by decide)

/-! ### Branch analysis of `downloadFile` -/

/-- Facts holding of every `downloadFile` outcome: the committed path is
untouched unless the attempt succeeded, and a successful attempt performed
exactly one transfer and left a file at the committed path. -/
def DLSpec (fs : FS) (r : Request) (o : DLOut) : Prop :=
  (o.res = Except.ok () ∨ o.fs (CacheFilename r.URL) = fs (CacheFilename r.URL)) ∧
  (o.res = Except.ok () → o.net = 1 ∧ ∃ c, o.fs (CacheFilename r.URL) = some c)

theorem DLSpec_of_base_eq {base base' : FS} (r : Request) (o : DLOut)
    (hC : base (CacheFilename r.URL) = base' (CacheFilename r.URL))
    (h : DLSpec base r o) : DLSpec base' r o := by
  unfold DLSpec at h ⊢
  rw [hC] at h
  exact h

theorem validateAndCommit_spec (env : Env) (fs3 : FS) (r : Request) (dl : String)
    (prog1 : Progress) (h1 : CacheFilename r.URL ≠ dl)
    (h2 : CacheFilename r.URL ≠ dl ++ ".invalid")
    (h3 : ∃ c, fs3 dl = some c) :
    DLSpec fs3 r (validateAndCommit env fs3 r dl prog1) := by
  obtain ⟨c, hc⟩ := h3
  unfold validateAndCommit DLSpec
  rcases hsha : r.SHA with _ | s
  · cases hcr : env.commitRenameOk
    · simp [hcr]
    · simp [hcr, fsRename_dst _ h1, hc]
  · cases hsv : env.shaValid
    · cases hqr : env.quarantineRenameOk
      · simp [hsv, hqr]
      · simp [hsv, hqr, fsRename_ne _ h1 h2]
    · cases hcr : env.commitRenameOk
      · simp [hsv, hcr]
      · simp [hsv, hcr, fsRename_dst _ h1, hc]

theorem streamBody_spec (env : Env) (fs2 : FS) (r : Request) (dl : String)
    (resp : Resp) (cs2 : Nat) (h1 : CacheFilename r.URL ≠ dl)
    (h2 : CacheFilename r.URL ≠ dl ++ ".invalid") :
    DLSpec fs2 r (streamBody env fs2 r dl resp cs2) := by
  unfold streamBody
  cases hsk : env.seekOk
  · simp [hsk, DLSpec]
  · rcases hce : env.copyErr with _ | k
    · simp only [hsk, hce]
      simp only [Bool.true_eq_false, if_false]
      exact DLSpec_of_base_eq r _ (fsWrite_ne fs2 _ h1)
        (validateAndCommit_spec env _ r dl _ h1 h2 ⟨_, fsWrite_self _ _ _⟩)
    · simp [hsk, hce, DLSpec, fsWrite_ne _ _ h1]

theorem handleStatus_spec (env : Env) (fs1 : FS) (r : Request) (dl : String)
    (resp : Resp) (currentSize : Nat) (h1 : CacheFilename r.URL ≠ dl)
    (h2 : CacheFilename r.URL ≠ dl ++ ".invalid") :
    DLSpec fs1 r (handleStatus env fs1 r dl resp currentSize) := by
  unfold handleStatus
  by_cases h416 : resp.statusCode = 416
  · cases htr : env.truncateOk
    · simp [h416, htr, DLSpec]
    · simp [h416, htr, DLSpec, fsWrite_ne _ _ h1]
  · by_cases hrange : resp.statusCode < 200 ∨ 300 ≤ resp.statusCode
    · simp [h416, hrange, DLSpec]
    · simp only [h416, hrange, if_false, ite_false, if_neg, eq_self_iff_true]
      simp [h416, hrange]
      exact streamBody_spec env fs1 r dl resp currentSize h1 h2

theorem downloadFile_spec (env : Env) (fs : FS) (r : Request) :
    DLSpec fs r (downloadFile env fs r) := by
  have h1 := committed_ne_dl r.URL
  have h2 := committed_ne_quarantine r.URL
  unfold downloadFile
  cases hmk : env.mkdirOk
  · simp [hmk, DLSpec]
  · cases hop : env.openOk
    · simp [hmk, hop, DLSpec]
    · cases hst : env.statOk
      · simp [hmk, hop, hst, DLSpec, fsEnsure_ne _ h1]
      · cases hnr : env.newRequestOk
        · simp [hmk, hop, hst, hnr, DLSpec, fsEnsure_ne _ h1]
        · rcases hdr : env.doResult with _ | resp
          · simp [hmk, hop, hst, hnr, hdr, DLSpec, fsEnsure_ne _ h1]
          · simp only [hmk, hop, hst, hnr, hdr]
            simp only [Bool.true_eq_false, if_false]
            exact DLSpec_of_base_eq r _ (fsEnsure_ne fs h1)
              (handleStatus_spec env _ r _ resp _ h1 h2)

/-! ### Concrete fixtures for witnesses and counterexamples -/

/-- The empty filesystem. -/
def fsEmpty : FS := fun _ => none

/-- A request for url `"u"` without a checksum reference. -/
def rU : Request := ⟨"u", none⟩

/-- Baseline environment: every step succeeds except that no response arrives
(`doResult = none`, a transport error). -/
def envBase : Env :=
  { mkdirOk := true, openOk := true, statOk := true, newRequestOk := true,
    doResult := none, truncateOk := true, seekOk := true, copyErr := none,
    shaValid := true, quarantineRenameOk := true, commitRenameOk := true,
    cpOk := true }

/-- A filesystem holding a 5-byte in-progress file for url `"u"`. -/
def fs5 : FS :=
  fun q => if q = cacheDownloadingFileName "u" then some [1, 2, 3, 4, 5] else none

/-! ### The claims -/

/-- C1: Commit atomicity — whenever a download attempt returns an error (at
directory preparation, file open, stat, request construction, transport,
truncation, status check, seek, stream copy, validation, or the commit rename
itself), the committed cache path `CacheFilename r.URL` is exactly as it was
before the attempt; only the final commit rename of a fully successful
(and, when a checksum reference is supplied, validated) attempt writes it. -/
theorem downloadFile_commit_atomicity (env : Env) (fs : FS) (r : Request) (e : Err)
    (h : (downloadFile env fs r).res = Except.error e) :
    (downloadFile env fs r).fs (CacheFilename r.URL) = fs (CacheFilename r.URL) := by
  rcases (downloadFile_spec env fs r).1 with h1 | h1
  · rw [h] at h1
    simp at h1
  · exact h1

/-- Witness for C1: a concrete attempt failing with a transport error leaves
the committed path absent. -/
theorem downloadFile_commit_atomicity_witness :
    (downloadFile envBase fsEmpty rU).res = Except.error Err.transport ∧
    (downloadFile envBase fsEmpty rU).fs (CacheFilename "u") = fsEmpty (CacheFilename "u") :=
  ⟨rfl, downloadFile_commit_atomicity envBase fsEmpty rU Err.transport rfl⟩

/-- C2: Checksum enforcement — when a checksum reference is supplied and the
validator rejects the downloaded bytes, the attempt returns the validation
error (also when the quarantine rename fails — that failure is discarded), the
committed path is never written, and (when the quarantine rename succeeds) the
in-progress file has been renamed to the `.invalid` quarantine name. -/
theorem downloadFile_checksum_enforcement (env : Env) (fs : FS) (r : Request)
    (resp : Resp) (s : SHA)
    (hmk : env.mkdirOk = true) (hop : env.openOk = true) (hst : env.statOk = true)
    (hnr : env.newRequestOk = true) (hdr : env.doResult = some resp)
    (h200 : 200 ≤ resp.statusCode) (h300 : resp.statusCode < 300)
    (hsk : env.seekOk = true) (hce : env.copyErr = none)
    (hsha : r.SHA = some s) (hval : env.shaValid = false)
    (hdl : fs (cacheDownloadingFileName r.URL) = none) :
    (downloadFile env fs r).res = Except.error Err.shaValidation ∧
    (downloadFile env fs r).fs (CacheFilename r.URL) = fs (CacheFilename r.URL) ∧
    (env.quarantineRenameOk = true →
      (downloadFile env fs r).fs (cacheDownloadingFileName r.URL) = none ∧
      (downloadFile env fs r).fs (cacheDownloadingFileName r.URL ++ ".invalid") =
        some resp.body) := by
  have h416 : resp.statusCode ≠ 416 := by omega
  have hrange : ¬(resp.statusCode < 200 ∨ 300 ≤ resp.statusCode) := by omega
  have h1 := committed_ne_dl r.URL
  have h2 := committed_ne_quarantine r.URL
  have h3 := dl_ne_quarantine r.URL
  have h3s := h3.symm
  by_cases hqr : env.quarantineRenameOk = true
  · simp [downloadFile, handleStatus, streamBody, validateAndCommit, copiedBytes,
      hmk, hop, hst, hnr, hdr, h416, hrange, hsk, hce, hsha, hval, hqr,
      fsEnsure_of_none hdl, fsRead, fsWrite_self, fsWrite_ne, fsRename_ne,
      fsRename_src, fsRename_dst, h1, h2, h3, h3s]
  · simp [downloadFile, handleStatus, streamBody, validateAndCommit, copiedBytes,
      hmk, hop, hst, hnr, hdr, h416, hrange, hsk, hce, hsha, hval, hqr,
      fsEnsure_of_none hdl, fsRead, fsWrite_self, fsWrite_ne, h1]

/-- A request for url `"u"` carrying a checksum reference. -/
def rUsha : Request := ⟨"u", some ⟨"s"⟩⟩

/-- Environment for the C2 witness: a 200 response with body `[1,2,3]` whose
checksum validation fails. -/
def envC2 : Env := { envBase with doResult := some ⟨200, 3, [1, 2, 3]⟩, shaValid := false }

/-- Witness for C2 at a concrete failed validation. -/
theorem downloadFile_checksum_enforcement_witness :
    (downloadFile envC2 fsEmpty rUsha).res = Except.error Err.shaValidation ∧
    (downloadFile envC2 fsEmpty rUsha).fs (CacheFilename "u") = none ∧
    (downloadFile envC2 fsEmpty rUsha).fs (cacheDownloadingFileName "u" ++ ".invalid") =
      some [1, 2, 3] := by
  have h := downloadFile_checksum_enforcement envC2 fsEmpty rUsha ⟨200, 3, [1, 2, 3]⟩ ⟨"s"⟩
    rfl rfl rfl rfl rfl (by decide) (by decide) rfl rfl rfl rfl rfl
  exact ⟨h.1, h.2.1, (h.2.2 rfl).2⟩

/-- C3: Idempotent cache hit — when a file exists at the committed path,
`Download` returns that path immediately with the filesystem untouched, zero
transfers and zero validations; and whenever a `Download` call succeeds, the
returned path is the committed path, a cache miss performed exactly one
transfer, and a second call (under any environment) returns the same path with
zero further transfers, zero validations, and the filesystem untouched. -/
theorem Download_idempotent_cache_hit (env env' : Env) (fs : FS) (r : Request) :
    (hasCache fs r.URL = true →
      Download env fs r = ⟨Except.ok (CacheFilename r.URL), fs, 0, 0⟩) ∧
    (∀ pth, (Download env fs r).res = Except.ok pth →
      pth = CacheFilename r.URL ∧
      (hasCache fs r.URL = false → (Download env fs r).net = 1) ∧
      Download env' (Download env fs r).fs r =
        ⟨Except.ok pth, (Download env fs r).fs, 0, 0⟩) := by
  constructor
  · intro hc
    simp [Download, hc]
  · intro pth h
    by_cases hc : hasCache fs r.URL = false
    · have hspec := downloadFile_spec env fs r
      unfold DLSpec at hspec
      rcases hres : (downloadFile env fs r).res with e | ⟨⟩
      · simp [Download, hc, hres] at h
      · obtain ⟨hnet, c, hcomm⟩ := hspec.2 hres
        have hD : Download env fs r =
            ⟨Except.ok (CacheFilename r.URL), (downloadFile env fs r).fs,
              (downloadFile env fs r).net, (downloadFile env fs r).sha⟩ := by
          simp [Download, hc, hres]
        rw [hD] at h
        simp only [] at h
        have hp : pth = CacheFilename r.URL := by
          cases h
          rfl
        subst hp
        have hc2 : hasCache (downloadFile env fs r).fs r.URL = true := by
          simp [hasCache, hcomm]
        refine ⟨rfl, ?_, ?_⟩
        · intro _
          rw [hD]
          exact hnet
        · rw [hD]
          simp [Download, hc2]
    · have hc' : hasCache fs r.URL = true := by
        simpa using hc
      have hD : Download env fs r = ⟨Except.ok (CacheFilename r.URL), fs, 0, 0⟩ := by
        simp [Download, hc']
      rw [hD] at h
      have hp : pth = CacheFilename r.URL := by
        cases h
        rfl
      subst hp
      refine ⟨rfl, ?_, ?_⟩
      · intro hfalse
        rw [hc'] at hfalse
        cases hfalse
      · rw [hD]
        simp [Download, hc']

/-- A filesystem holding a committed cache entry for url `"u"`. -/
def fsHit : FS := fun q => if q = CacheFilename "u" then some [1] else none

/-- Witness for C3: a concrete cache hit returns the committed path at once,
with no transfer, no validation and no filesystem change. -/
theorem Download_idempotent_cache_hit_witness :
    hasCache fsHit "u" = true ∧
    Download envBase fsHit rU = ⟨Except.ok (CacheFilename "u"), fsHit, 0, 0⟩ :=
  ⟨rfl, (Download_idempotent_cache_hit envBase envBase fsHit rU).1 rfl⟩

/-- C4 counterexample: with every step succeeding and the server answering 416,
the attempt aborts with `unexpectedStatus 416` — the 416 status is *not*
excluded from the unexpected-status abort condition, contrary to the claim. -/
theorem downloadFile_416_abort_counterexample :
    (downloadFile { envBase with doResult := some ⟨416, -1, [7]⟩ } fs5 rU).res =
      Except.error (Err.unexpectedStatus 416) := rfl

/-- C4 (amended): on a 416 response (with truncation succeeding) the
in-progress file is truncated to zero length and the tracked length is reset,
the response body is not written as data, the committed path is untouched, and
the attempt then aborts with an unexpected-status error — 416 is *not*
excluded from the `[200,300)` status check. -/
theorem downloadFile_416_behavior (env : Env) (fs : FS) (r : Request) (resp : Resp)
    (hmk : env.mkdirOk = true) (hop : env.openOk = true) (hst : env.statOk = true)
    (hnr : env.newRequestOk = true) (hdr : env.doResult = some resp)
    (h416 : resp.statusCode = 416) (htr : env.truncateOk = true) :
    (downloadFile env fs r).res = Except.error (Err.unexpectedStatus 416) ∧
    (downloadFile env fs r).fs (cacheDownloadingFileName r.URL) = some [] ∧
    (downloadFile env fs r).fs (CacheFilename r.URL) = fs (CacheFilename r.URL) := by
  have h1 := committed_ne_dl r.URL
  simp [downloadFile, handleStatus, hmk, hop, hst, hnr, hdr, h416, htr,
    fsWrite_self, fsWrite_ne, fsEnsure_ne, h1]

/-- Witness for the amended C4 at a concrete 416 response over a 5-byte
in-progress file. -/
theorem downloadFile_416_behavior_witness :
    (downloadFile { envBase with doResult := some ⟨416, -1, [7]⟩ } fs5 rU).res =
      Except.error (Err.unexpectedStatus 416) ∧
    (downloadFile { envBase with doResult := some ⟨416, -1, [7]⟩ } fs5 rU).fs
      (cacheDownloadingFileName "u") = some [] ∧
    (downloadFile { envBase with doResult := some ⟨416, -1, [7]⟩ } fs5 rU).fs
      (CacheFilename "u") = fs5 (CacheFilename "u") :=
  downloadFile_416_behavior { envBase with doResult := some ⟨416, -1, [7]⟩ } fs5 rU
    ⟨416, -1, [7]⟩ rfl rfl rfl rfl rfl rfl rfl

/-- Body of the C5 fixture response (ten bytes, content length 10). -/
def body10 : List Nat := [11, 12, 13, 14, 15, 16, 17, 18, 19, 20]

/-- Environment for C5: a 200 response of content length 10 while a 5-byte
in-progress file exists. -/
def envC5 : Env := { envBase with doResult := some ⟨200, 10, body10⟩ }

/-- C5 counterexample: for a 200 (non-206) response with content length 10
over a prior in-progress length 5, the progress meter total is
`10 + 5 = 15`, not the response content length 10 alone. -/
theorem downloadFile_non206_total_counterexample :
    (downloadFile envC5 fs5 rU).progress = some ⟨15, 15, 0⟩ ∧ (15 : Int) ≠ (10 : Int) :=
  ⟨rfl, by decide⟩

/-- C5 (amended): for every 2xx response other than 206 received while the
in-progress file has prior content `old`, the write cursor is positioned at
start-of-file (the committed bytes are the response body followed by any stale
tail of `old`), and the progress meter total is the response content length
*plus* `old.length` (the prior length is added, unlike what the claim states). -/
theorem downloadFile_non206_full_response (env : Env) (fs : FS) (r : Request)
    (resp : Resp) (old : List Nat)
    (hmk : env.mkdirOk = true) (hop : env.openOk = true) (hst : env.statOk = true)
    (hnr : env.newRequestOk = true) (hdr : env.doResult = some resp)
    (h200 : 200 ≤ resp.statusCode) (h300 : resp.statusCode < 300)
    (h206 : resp.statusCode ≠ 206)
    (hsk : env.seekOk = true) (hce : env.copyErr = none)
    (hsha : r.SHA = none) (hcr : env.commitRenameOk = true)
    (hdl : fs (cacheDownloadingFileName r.URL) = some old) :
    (downloadFile env fs r).progress =
      some ⟨resp.contentLength + (old.length : Int),
        (old.length : Int) + (resp.body.length : Int), 0⟩ ∧
    (downloadFile env fs r).res = Except.ok () ∧
    (downloadFile env fs r).fs (CacheFilename r.URL) =
      some (resp.body ++ old.drop resp.body.length) := by
  have h416 : resp.statusCode ≠ 416 := by omega
  have hrange : ¬(resp.statusCode < 200 ∨ 300 ≤ resp.statusCode) := by omega
  have h1 := committed_ne_dl r.URL
  simp [downloadFile, handleStatus, streamBody, validateAndCommit, copiedBytes,
    newProgress, hmk, hop, hst, hnr, hdr, h416, hrange, h206, hsk, hce, hsha, hcr,
    fsEnsure_of_some hdl, fsRead, hdl, fsWrite_self, fsRename_dst, h1]

/-- Witness for the amended C5 at the concrete 200-after-partial scenario. -/
theorem downloadFile_non206_full_response_witness :
    (downloadFile envC5 fs5 rU).progress = some ⟨15, 15, 0⟩ ∧
    (downloadFile envC5 fs5 rU).res = Except.ok () ∧
    (downloadFile envC5 fs5 rU).fs (CacheFilename "u") = some body10 := by
  have h := downloadFile_non206_full_response envC5 fs5 rU ⟨200, 10, body10⟩
    [1, 2, 3, 4, 5] rfl rfl rfl rfl rfl (by decide) (by decide) (by decide)
    rfl rfl rfl rfl rfl
  exact ⟨h.1.trans (by decide), h.2.1, h.2.2.trans (by decide)⟩

/-- C6: Local-path short-circuit — when the request URL starts with `/`,
`DownloadToGuest` leaves the host filesystem (hence the cache) untouched,
performs no network transfer and no validation, and invokes the external copy
capability exactly once, with the original URL string as source and the given
destination as target; the call's result is exactly the copy command's result. -/
theorem DownloadToGuest_local_path (env : Env) (fs : FS) (r : Request)
    (filename : String) (h : startsWithSlash r.URL = true) :
    (DownloadToGuest env fs r filename).fs = fs ∧
    (DownloadToGuest env fs r filename).net = 0 ∧
    (DownloadToGuest env fs r filename).sha = 0 ∧
    (DownloadToGuest env fs r filename).copies = [(r.URL, filename)] ∧
    (DownloadToGuest env fs r filename).res =
      (if env.cpOk then Except.ok () else Except.error Err.copyCmd) := by
  simp [DownloadToGuest, h]

/-- Witness for C6 at a concrete local path. -/
theorem DownloadToGuest_local_path_witness :
    startsWithSlash "/tmp/x" = true ∧
    (DownloadToGuest envBase fsEmpty ⟨"/tmp/x", none⟩ "/dst").copies =
      [("/tmp/x", "/dst")] :=
  ⟨rfl, (DownloadToGuest_local_path envBase fsEmpty ⟨"/tmp/x", none⟩ "/dst" rfl).2.2.2.1⟩

/-- C7: Quarantine invariant — the cache-hit check consults only the committed
path (it is unchanged under any change away from the committed path, and in
particular under writing any quarantined file), a missing committed entry is
never a cache hit no matter what sits at the quarantine name, and a subsequent
attempt (here observed up to the transport step) creates a fresh empty
in-progress file at the same temporary name `cacheDownloadingFileName url`. -/
theorem hasCache_quarantine_invariant (fs : FS) (url : String) :
    (∀ fs' : FS, fs (CacheFilename url) = fs' (CacheFilename url) →
      hasCache fs url = hasCache fs' url) ∧
    (∀ q : List Nat,
      hasCache (fsWrite fs (cacheDownloadingFileName url ++ ".invalid") q) url =
        hasCache fs url) ∧
    (fs (CacheFilename url) = none → hasCache fs url = false) ∧
    (∀ (env : Env) (r : Request), r.URL = url →
      fs (cacheDownloadingFileName url) = none →
      env.mkdirOk = true → env.openOk = true → env.statOk = true →
      env.newRequestOk = true → env.doResult = none →
      (downloadFile env fs r).fs (cacheDownloadingFileName url) = some []) := by
  refine ⟨?_, ?_, ?_, ?_⟩
  · intro fs' h
    simp [hasCache, h]
  · intro q
    rw [hasCache, hasCache, fsWrite_ne _ _ (committed_ne_quarantine url)]
  · intro h
    simp [hasCache, h]
  · intro env r hurl hdl hmk hop hst hnr hdr
    subst hurl
    simp [downloadFile, hmk, hop, hst, hnr, hdr, fsEnsure_of_none hdl, fsWrite_self]

/-- A filesystem holding only a quarantined entry for url `"u"`. -/
def fsQuar : FS :=
  fun q => if q = cacheDownloadingFileName "u" ++ ".invalid" then some [9] else none

/-- Witness for C7: a quarantined entry is not a cache hit, and the next
attempt starts a fresh empty in-progress file at the same temporary name. -/
theorem hasCache_quarantine_invariant_witness :
    hasCache fsQuar "u" = false ∧
    (downloadFile envBase fsQuar rU).fs (cacheDownloadingFileName "u") = some [] :=
  ⟨(hasCache_quarantine_invariant fsQuar "u").2.2.1 rfl,
   (hasCache_quarantine_invariant fsQuar "u").2.2.2 envBase rU rfl rfl rfl rfl rfl rfl rfl⟩

theorem format2f_ne_empty (current total : Int) : format2f current total ≠ "" := by
  unfold format2f
  intro h
  have hl := congrArg String.length h
  rw [strLenAppend] at hl
  have e1 : ("" : String).length = 0 := rfl
  have e2 : ("%" : String).length = 1 := rfl
  rw [e1, e2] at hl
  omega

/-- Environment for C8: a 206 response with *unknown* content length
(`ContentLength = -1`) resuming a 5-byte in-progress file. -/
def envC8 : Env := { envBase with doResult := some ⟨206, -1, [9]⟩ }

/-- C8 counterexample: a resumed transfer whose origin declares no content
length (`ContentLength = -1`) over a prior length of 5 gets meter total
`-1 + 5 = 4 > 0`, so the percentage emitted for it is `"150.00%"` — not the
blank string the claim promises for every unknown-length transfer. -/
theorem unknown_length_progress_counterexample :
    (downloadFile envC8 fs5 rU).progress = some ⟨4, 6, 0⟩ ∧
    terminal.Progress 6 4 = "150.00%" ∧ ("150.00%" : String) ≠ "" :=
  ⟨rfl, rfl, by decide⟩

/-- C8 (amended): the emitted percentage is blank exactly when the meter total
is ≤ 0 (so an unknown-length transfer reports blank only when its total
`ContentLength + L ≤ 0`, e.g. a fresh start with `L = 0`; a resumed
unknown-length transfer with `L ≥ 2` has positive total and reports a non-blank
percentage); an unthrottled write emits exactly
`terminal.Progress (Current + len) Total`. -/
theorem terminal_progress_blank_iff :
    (∀ current total : Int, terminal.Progress current total = "" ↔ total ≤ 0) ∧
    (∀ (p : Progress) (now : Int) (b : List Nat), 500 ≤ now - p.lastReport →
      (Progress.Write p now b).emitted =
        some (terminal.Progress (p.Current + (b.length : Int)) p.Total)) := by
  constructor
  · intro current total
    unfold terminal.Progress
    split <;> simp_all [format2f_ne_empty]
  · intro p now b h
    have hlt : ¬(now - p.lastReport < 500) := by omega
    simp [Progress.Write, hlt]

/-- A fresh meter for an unknown-length transfer (`ContentLength = -1`,
offset 0). -/
def pFresh : Progress := newProgress (-1) 0

/-- Witness for the amended C8. -/
theorem terminal_progress_blank_iff_witness :
    terminal.Progress 5 (-1) = "" ∧
    (Progress.Write pFresh 1000 [9]).emitted =
      some (terminal.Progress (pFresh.Current + (([9] : List Nat).length : Int))
        pFresh.Total) :=
  ⟨(terminal_progress_blank_iff.1 5 (-1)).mpr (by decide),
   terminal_progress_blank_iff.2 pFresh 1000 [9] (by decide)⟩

/-- C9: Progress sink totality and exactness — for every byte slice `b`,
`Progress.Write` returns `(len b, nil)` and increments `Current` by exactly
`len b`, whether or not the throttle suppresses the terminal emission. -/
theorem Progress_Write_exact (p : Progress) (now : Int) (b : List Nat) :
    (Progress.Write p now b).n = b.length ∧
    (Progress.Write p now b).err = none ∧
    (Progress.Write p now b).p.Current = p.Current + (b.length : Int) := by
  simp only [Progress.Write]
  refine ⟨?_, ?_, ?_⟩ <;> (split <;> rfl)

/-- C10: for a request whose URL begins with `/`, the checksum reference is
entirely ignored — no validation runs, and the outcome is identical to the
same request without a checksum reference. -/
theorem DownloadToGuest_local_ignores_sha (env : Env) (fs : FS) (url : String)
    (s : SHA) (filename : String) (h : startsWithSlash url = true) :
    (DownloadToGuest env fs ⟨url, some s⟩ filename).sha = 0 ∧
    DownloadToGuest env fs ⟨url, some s⟩ filename =
      DownloadToGuest env fs ⟨url, none⟩ filename := by
  constructor
  · simp [DownloadToGuest, h]
  · simp [DownloadToGuest, h]

/-- Witness for C10 at a concrete local path with a checksum reference. -/
theorem DownloadToGuest_local_ignores_sha_witness :
    startsWithSlash "/tmp/x" = true ∧
    (DownloadToGuest envBase fsEmpty ⟨"/tmp/x", some ⟨"s"⟩⟩ "/dst").sha = 0 :=
  ⟨rfl, (DownloadToGuest_local_ignores_sha envBase fsEmpty "/tmp/x" ⟨"s"⟩ "/dst" rfl).1⟩

end Downloader
